import Mathlib

/-!
Verification of the RaisaTrade execution engine against its specification.

Each section shallowly embeds one part of the Python sources:
* `bybit_futures_bot.py` — position state machine (TP1/TP2, breakeven,
  trailing stop) and session-breakout signal resolution;
* `pionex_api.py` — the REST retry loop of `_make_request`;
* `auto_trader.py` — the timeout-bounded strategy execution harness;
* `trading_strategies.py` — `rsi_strategy` (used as the harness fallback);
* `pionex_ws.py` — the websocket subscription set;
* `watchdog.py` — per-instance failure counting and restart.

Machine floats are modelled as rationals; Python dicts carrying signals are
modelled as association lists over a small value type.
-/

namespace RaisaTrade

/-! ## Position state machine (`bybit_futures_bot.py`)

`PositionInfo` mirrors the dataclass fields used by the management logic
(lines 40-70); prices are rationals, flags booleans. -/

inductive Side where
  | buy
  | sell
deriving DecidableEq

structure PositionInfo where
  side : Side
  entry_price : ℚ
  tp1_hit : Bool := false
  tp2_hit : Bool := false
  breakeven_moved : Bool := false
  trailing_enabled : Bool := false
  trailing_stop_price : ℚ := 0
  last_trailing_price : ℚ := 0
  stop_loss_price : ℚ := 0
  tp1_price : ℚ := 0
  tp2_price : ℚ := 0
deriving DecidableEq

/-- Bot-level configuration fields of `BybitFuturesBot.__init__`
(lines 88-99), with the code's default values. -/
structure BotConfig where
  stop_loss_percentage : ℚ := 2
  take_profit_percentage : ℚ := 4
  tp1_percentage : ℚ := 5/2
  tp2_percentage : ℚ := 5
  breakeven_percentage : ℚ := 1
  trailing_step_percentage : ℚ := 3/10
  trailing_distance_percentage : ℚ := 4/5
  trailing_enabled : Bool := true
  auto_breakeven_enabled : Bool := true
deriving DecidableEq

/-- `_check_take_profit` (lines 882-919).  Returns the mutated position and
the close decision.  The TP1 branch tests only `side == 'Buy'`; a `Sell`
position falls through.  TP2 has branches for both sides.  On a TP1 hit the
function returns `False` (do not close) after optionally enabling trailing. -/
def check_take_profit (cfg : BotConfig) (p : PositionInfo) (current_price : ℚ) :
    PositionInfo × Bool :=
  if ¬p.tp1_hit ∧ p.side = Side.buy ∧ current_price ≥ p.tp1_price then
    ({ p with tp1_hit := true,
              trailing_enabled := if cfg.trailing_enabled then true else p.trailing_enabled },
     false)
  else if p.tp1_hit ∧ ¬p.tp2_hit ∧ p.side = Side.buy ∧ current_price ≥ p.tp2_price then
    ({ p with tp2_hit := true }, true)
  else if p.tp1_hit ∧ ¬p.tp2_hit ∧ p.side = Side.sell ∧ current_price ≤ p.tp2_price then
    ({ p with tp2_hit := true }, true)
  else (p, false)

/-- `_update_trailing_stop` (lines 964-993).  When `last_trailing_price` is
zero the Python division raises `ZeroDivisionError`, which the enclosing
`except` swallows, leaving the position unchanged; we model that case as the
identity. -/
def update_trailing_stop (cfg : BotConfig) (p : PositionInfo) (current_price : ℚ) :
    PositionInfo :=
  if p.last_trailing_price = 0 then p
  else
    let price_change_percentage :=
      |current_price - p.last_trailing_price| / p.last_trailing_price * 100
    if price_change_percentage ≥ cfg.trailing_step_percentage then
      match p.side with
      | Side.buy =>
          let new_trailing_stop := current_price * (1 - cfg.trailing_distance_percentage / 100)
          if new_trailing_stop > p.trailing_stop_price then
            { p with trailing_stop_price := new_trailing_stop,
                     last_trailing_price := current_price }
          else p
      | Side.sell =>
          let new_trailing_stop := current_price * (1 + cfg.trailing_distance_percentage / 100)
          if new_trailing_stop < p.trailing_stop_price then
            { p with trailing_stop_price := new_trailing_stop,
                     last_trailing_price := current_price }
          else p
    else p

/-- `_update_position_management` (lines 943-962): breakeven relocation first,
then the trailing-stop update gated on `trailing_enabled and tp1_hit`. -/
def update_position_management (cfg : BotConfig) (p : PositionInfo)
    (current_price profit_percentage : ℚ) : PositionInfo :=
  let p1 :=
    if cfg.auto_breakeven_enabled ∧ ¬p.breakeven_moved ∧
        profit_percentage ≥ cfg.breakeven_percentage then
      { p with stop_loss_price := p.entry_price, breakeven_moved := true }
    else p
  if p1.trailing_enabled ∧ p1.tp1_hit then update_trailing_stop cfg p1 current_price
  else p1

/-- A sequence of price ticks applied through `_update_position_management`;
each tick carries the current price and the profit percentage the caller
computed for it. -/
def manage_ticks (cfg : BotConfig) (p : PositionInfo) (ticks : List (ℚ × ℚ)) :
    PositionInfo :=
  ticks.foldl (fun s t => update_position_management cfg s t.1 t.2) p

/-- Modelled from the spec: `_initialize_position_management` is called at
`bybit_futures_bot.py` line 809 but its definition is not among the sources.
Per spec §4.5 and §8, TP1/TP2 sit `tp1_percentage`/`tp2_percentage` of entry
in the profit direction, the initial stop-loss sits `stop_loss_percentage`
of entry on the losing side, and the trailing fields start from entry. -/
def initialize_position_management (cfg : BotConfig) (p : PositionInfo) : PositionInfo :=
  match p.side with
  | Side.buy =>
      { p with tp1_price := p.entry_price * (1 + cfg.tp1_percentage / 100),
               tp2_price := p.entry_price * (1 + cfg.tp2_percentage / 100),
               stop_loss_price := p.entry_price * (1 - cfg.stop_loss_percentage / 100),
               trailing_stop_price := p.entry_price * (1 - cfg.stop_loss_percentage / 100),
               last_trailing_price := p.entry_price }
  | Side.sell =>
      { p with tp1_price := p.entry_price * (1 - cfg.tp1_percentage / 100),
               tp2_price := p.entry_price * (1 - cfg.tp2_percentage / 100),
               stop_loss_price := p.entry_price * (1 + cfg.stop_loss_percentage / 100),
               trailing_stop_price := p.entry_price * (1 + cfg.stop_loss_percentage / 100),
               last_trailing_price := p.entry_price }

/-- The per-side profit percentage of a position at a price (relative to
entry), as the spec measures TP triggers. -/
def profit_pct (p : PositionInfo) (current_price : ℚ) : ℚ :=
  match p.side with
  | Side.buy => (current_price - p.entry_price) / p.entry_price * 100
  | Side.sell => (p.entry_price - current_price) / p.entry_price * 100

/-- A freshly initialized short position at entry 100 under the default
configuration. -/
def shortPos100 : PositionInfo :=
  initialize_position_management {} { side := Side.sell, entry_price := 100 }

/-- C1: for a short position the claim fails.  With the default
configuration (`tp1_percentage = 2.5`) a short at entry 100 sees price 97,
a profit of 3% ≥ 2.5%, yet `_check_take_profit` leaves `tp1_hit` false,
does not enable trailing, and the position state is entirely unchanged:
the TP1 branch tests only `side == 'Buy'`. -/
theorem c1_tp1_short_never_hits :
    profit_pct shortPos100 97 ≥ (BotConfig.tp1_percentage {}) ∧
    97 ≤ shortPos100.tp1_price ∧
    (check_take_profit {} shortPos100 97).1.tp1_hit = false ∧
    (check_take_profit {} shortPos100 97).1.trailing_enabled = false ∧
    (check_take_profit {} shortPos100 97).1 = shortPos100 ∧
    (check_take_profit {} shortPos100 97).2 = false := by
  refine ⟨?_, ?_, ?_, ?_, ?_, ?_⟩ <;>
    norm_num [check_take_profit, shortPos100, initialize_position_management, profit_pct]

/-- For a long position the TP1 check behaves as the spec says: price at or
above `tp1_price` sets `tp1_hit`, enables trailing when the bot's trailing
is configured on, and does not close the position. -/
theorem tp1_long_triggers (cfg : BotConfig) (p : PositionInfo) (price : ℚ)
    (htr : cfg.trailing_enabled = true) (h1 : p.tp1_hit = false)
    (hs : p.side = Side.buy) (hp : price ≥ p.tp1_price) :
    check_take_profit cfg p price =
      ({ p with tp1_hit := true, trailing_enabled := true }, false) := by
  rw [check_take_profit, if_pos ⟨by rw [h1]; exact Bool.false_ne_true, hs, hp⟩, htr]
  simp

/-- `_update_trailing_stop` never touches the stop-loss, side, entry, TP or
breakeven fields, and it moves `trailing_stop_price` only in the profit
direction of the side, adopted strictly (only when it improves). -/
theorem update_trailing_stop_fields (cfg : BotConfig) (p : PositionInfo)
    (price : ℚ) :
    let q := update_trailing_stop cfg p price
    q.side = p.side ∧ q.entry_price = p.entry_price ∧ q.tp1_hit = p.tp1_hit ∧
    q.breakeven_moved = p.breakeven_moved ∧ q.trailing_enabled = p.trailing_enabled ∧
    q.stop_loss_price = p.stop_loss_price ∧
    (p.side = Side.buy → p.trailing_stop_price ≤ q.trailing_stop_price) ∧
    (p.side = Side.sell → q.trailing_stop_price ≤ p.trailing_stop_price) ∧
    (q.trailing_stop_price ≠ p.trailing_stop_price →
      (p.side = Side.buy → p.trailing_stop_price < q.trailing_stop_price) ∧
      (p.side = Side.sell → q.trailing_stop_price < p.trailing_stop_price)) := by
  unfold update_trailing_stop
  rcases p with ⟨side, entry, tp1, tp2, brk, tren, tsp, ltp, slp, tp1p, tp2p⟩
  cases side <;> simp only [] <;> split_ifs <;> simp_all <;> linarith

/-- One `_update_position_management` step: the side, entry and `tp1_hit`
are preserved; under the side's stop/entry well-formedness, both
`stop_loss_price` and `trailing_stop_price` move only in the profit
direction and the well-formedness is preserved. -/
theorem update_position_management_step (cfg : BotConfig) (p : PositionInfo)
    (price profit : ℚ) :
    let q := update_position_management cfg p price profit
    q.side = p.side ∧ q.entry_price = p.entry_price ∧ q.tp1_hit = p.tp1_hit ∧
    (p.side = Side.buy → p.stop_loss_price ≤ p.entry_price →
      p.stop_loss_price ≤ q.stop_loss_price ∧ q.stop_loss_price ≤ q.entry_price ∧
      p.trailing_stop_price ≤ q.trailing_stop_price) ∧
    (p.side = Side.sell → p.entry_price ≤ p.stop_loss_price →
      q.stop_loss_price ≤ p.stop_loss_price ∧ q.entry_price ≤ q.stop_loss_price ∧
      q.trailing_stop_price ≤ p.trailing_stop_price) := by
  intro q
  by_cases hb : cfg.auto_breakeven_enabled ∧ ¬p.breakeven_moved ∧
      profit ≥ cfg.breakeven_percentage
  · set p1 : PositionInfo :=
      { p with stop_loss_price := p.entry_price, breakeven_moved := true } with hp1
    have hq : q = if p1.trailing_enabled ∧ p1.tp1_hit
        then update_trailing_stop cfg p1 price else p1 := by
      simp only [q, update_position_management, if_pos hb]
    by_cases ht : p1.trailing_enabled ∧ p1.tp1_hit
    · have h := update_trailing_stop_fields cfg p1 price
      rw [hq, if_pos ht]
      obtain ⟨hside, hentry, htp1, -, -, hslp, hbuy, hsell, -⟩ := h
      refine ⟨by simp [hside, hp1], by simp [hentry, hp1], by simp [htp1, hp1],
        fun hs hwf => ?_, fun hs hwf => ?_⟩
      · refine ⟨by simp [hslp, hp1]; exact hwf, by simp [hslp, hentry, hp1], ?_⟩
        exact hbuy (by simp [hp1, hs])
      · refine ⟨by simp [hslp, hp1]; exact hwf, by simp [hslp, hentry, hp1], ?_⟩
        exact hsell (by simp [hp1, hs])
    · rw [hq, if_neg ht]
      refine ⟨by simp [hp1], by simp [hp1], by simp [hp1],
        fun hs hwf => ⟨by simp [hp1]; exact hwf, by simp [hp1], by simp [hp1]⟩,
        fun hs hwf => ⟨by simp [hp1]; exact hwf, by simp [hp1], by simp [hp1]⟩⟩
  · have hq : q = if p.trailing_enabled ∧ p.tp1_hit
        then update_trailing_stop cfg p price else p := by
      simp only [q, update_position_management, if_neg hb]
    by_cases ht : p.trailing_enabled ∧ p.tp1_hit
    · have h := update_trailing_stop_fields cfg p price
      rw [hq, if_pos ht]
      obtain ⟨hside, hentry, htp1, -, -, hslp, hbuy, hsell, -⟩ := h
      exact ⟨hside, hentry, htp1,
        fun hs hwf => ⟨le_of_eq hslp.symm, by rw [hslp, hentry]; exact hwf, hbuy hs⟩,
        fun hs hwf => ⟨le_of_eq hslp, by rw [hslp, hentry]; exact hwf, hsell hs⟩⟩
    · rw [hq, if_neg ht]
      exact ⟨rfl, rfl, rfl, fun _ hwf => ⟨le_refl _, hwf, le_refl _⟩,
        fun _ hwf => ⟨le_refl _, hwf, le_refl _⟩⟩

/-- C2: once `tp1_hit` is true, across any sequence of price ticks through
`_update_position_management` (breakeven relocation and trailing updates
included), both the stop-loss and the trailing stop of a long position are
non-decreasing and those of a short position are non-increasing — provided
the stop starts on the losing side of entry, as `_initialize_position_management`
(spec-modelled) places it. -/
theorem c2_stop_ratchet (cfg : BotConfig) (p : PositionInfo) (ticks : List (ℚ × ℚ))
    (htp1 : p.tp1_hit = true)
    (hbuy : p.side = Side.buy → p.stop_loss_price ≤ p.entry_price)
    (hsell : p.side = Side.sell → p.entry_price ≤ p.stop_loss_price) :
    (p.side = Side.buy →
      p.stop_loss_price ≤ (manage_ticks cfg p ticks).stop_loss_price ∧
      p.trailing_stop_price ≤ (manage_ticks cfg p ticks).trailing_stop_price) ∧
    (p.side = Side.sell →
      (manage_ticks cfg p ticks).stop_loss_price ≤ p.stop_loss_price ∧
      (manage_ticks cfg p ticks).trailing_stop_price ≤ p.trailing_stop_price) := by
  clear htp1
  induction ticks generalizing p with
  | nil => exact ⟨fun _ => ⟨le_refl _, le_refl _⟩, fun _ => ⟨le_refl _, le_refl _⟩⟩
  | cons t ts ih =>
    have hstep := update_position_management_step cfg p t.1 t.2
    obtain ⟨hside, hentry, -, hstepb, hsteps⟩ := hstep
    set q := update_position_management cfg p t.1 t.2 with hqdef
    have hrest := ih q
      (fun hs => (hstepb (hside.symm.trans hs) (hbuy (hside.symm.trans hs))).2.1)
      (fun hs => (hsteps (hside.symm.trans hs) (hsell (hside.symm.trans hs))).2.1)
    have hfold : manage_ticks cfg p (t :: ts) = manage_ticks cfg q ts := by
      simp [manage_ticks, hqdef]
    constructor
    · intro hs
      have hqb := hstepb hs (hbuy hs)
      have hr := hrest.1 (hside.trans hs)
      rw [hfold]
      exact ⟨le_trans hqb.1 hr.1, le_trans hqb.2.2 hr.2⟩
    · intro hs
      have hqs := hsteps hs (hsell hs)
      have hr := hrest.2 (hside.trans hs)
      rw [hfold]
      exact ⟨le_trans hr.1 hqs.1, le_trans hr.2 hqs.2.2⟩

/-- The stop/entry well-formedness the ratchet theorem assumes holds for
every freshly initialized position: the initial stop sits on the losing
side of entry. -/
theorem initialize_position_management_wf (cfg : BotConfig) (p : PositionInfo)
    (hentry : 0 ≤ p.entry_price) (hsl : 0 ≤ cfg.stop_loss_percentage) :
    ((initialize_position_management cfg p).side = Side.buy →
      (initialize_position_management cfg p).stop_loss_price ≤
        (initialize_position_management cfg p).entry_price) ∧
    ((initialize_position_management cfg p).side = Side.sell →
      (initialize_position_management cfg p).entry_price ≤
        (initialize_position_management cfg p).stop_loss_price) := by
  have hm : 0 ≤ p.entry_price * (cfg.stop_loss_percentage / 100) := by positivity
  cases hside : p.side <;>
    simp [initialize_position_management, hside] <;> nlinarith [hm]

/-- A long position after TP1 used to witness the ratchet theorem. -/
def demoLongPos : PositionInfo :=
  { side := Side.buy, entry_price := 100, tp1_hit := true, trailing_enabled := true,
    trailing_stop_price := 96, last_trailing_price := 100, stop_loss_price := 98,
    tp1_price := 5/2, tp2_price := 105 }

theorem c2_stop_ratchet_witness :
    (demoLongPos.side = Side.buy →
      demoLongPos.stop_loss_price ≤
        (manage_ticks {} demoLongPos [(102, 2), (104, 4)]).stop_loss_price ∧
      demoLongPos.trailing_stop_price ≤
        (manage_ticks {} demoLongPos [(102, 2), (104, 4)]).trailing_stop_price) ∧
    (demoLongPos.side = Side.sell →
      (manage_ticks {} demoLongPos [(102, 2), (104, 4)]).stop_loss_price ≤
        demoLongPos.stop_loss_price ∧
      (manage_ticks {} demoLongPos [(102, 2), (104, 4)]).trailing_stop_price ≤
        demoLongPos.trailing_stop_price) :=
  c2_stop_ratchet {} demoLongPos [(102, 2), (104, 4)] rfl
    (fun _ => by norm_num [demoLongPos])
    (fun h => by simp [demoLongPos] at h)

/-! ## REST retry loop (`pionex_api.py`, `_make_request`, lines 93-151)

One call to the backend per loop iteration; the outcome of attempt `i` is
given by an oracle `f i`.  The embedding returns the request result, the
list of sleep durations in order, and the number of backend calls made. -/

/-- What one backend attempt can come back with, following the branches of
`_make_request`: HTTP 200 with API code 0, 200 with a non-zero code, 429,
5xx, another status, or a raised exception. -/
inductive AttemptOutcome where
  | success (data : String)
  | apiError (code : Int) (msg : String)
  | http429 (retryAfter : ℚ)
  | http5xx (status : Nat)
  | httpOther (status : Nat) (text : String)
  | timeout
  | connError (msg : String)
  | otherError (msg : String)
deriving DecidableEq

/-- The dictionaries `_make_request` returns: the parsed data, `{'error',
'code'}` for an API error, `{'error'}` for an unexpected status, and the
final `{'error': 'All retry attempts failed. Last error: ...'}` carrying the
last recorded exception text. -/
inductive RequestResult where
  | ok (data : String)
  | apiErr (msg : String) (code : Int)
  | httpErr (status : Nat) (text : String)
  | exhausted (last : Option String)
deriving DecidableEq

/-- Retry configuration of `PionexAPI.__init__` (lines 23-25), code defaults. -/
structure ApiConfig where
  retry_attempts : Nat := 3
  retry_backoff : ℚ := 3/2
deriving DecidableEq

/-- The `last_exception` strings the loop records (the Python messages also
interpolate the attempt counter, which nothing reads back). -/
def lastExceptionMsg : AttemptOutcome → Option String
  | AttemptOutcome.timeout => some "Request timeout"
  | AttemptOutcome.connError m => some ("Connection error: " ++ m)
  | AttemptOutcome.otherError m => some ("Request error: " ++ m)
  | _ => none

/-- The retry loop of `_make_request` from a given attempt index with a given
number of loop iterations left and the current `last_exception`.  A 429
sleeps `Retry-After` and `continue`s; 5xx/timeout/connection/other errors
sleep `backoff ** attempt` when `attempt < retry_attempts - 1` and continue;
success, API errors and other HTTP statuses return at once; an exhausted
loop returns the final error. -/
def make_request_from (cfg : ApiConfig) (f : Nat → AttemptOutcome) :
    Nat → Nat → Option String → RequestResult × List ℚ × Nat
  | 0, _, last => (RequestResult.exhausted last, [], 0)
  | remaining + 1, attempt, last =>
    let backoffSleep : List ℚ :=
      if attempt < cfg.retry_attempts - 1 then [cfg.retry_backoff ^ attempt] else []
    match f attempt with
    | AttemptOutcome.success d => (RequestResult.ok d, [], 1)
    | AttemptOutcome.apiError c m => (RequestResult.apiErr m c, [], 1)
    | AttemptOutcome.httpOther s t => (RequestResult.httpErr s t, [], 1)
    | AttemptOutcome.http429 r =>
      let rest := make_request_from cfg f remaining (attempt + 1) last
      (rest.1, r :: rest.2.1, rest.2.2 + 1)
    | AttemptOutcome.http5xx _ =>
      let rest := make_request_from cfg f remaining (attempt + 1) last
      (rest.1, backoffSleep ++ rest.2.1, rest.2.2 + 1)
    | AttemptOutcome.timeout =>
      let rest := make_request_from cfg f remaining (attempt + 1)
        (lastExceptionMsg AttemptOutcome.timeout)
      (rest.1, backoffSleep ++ rest.2.1, rest.2.2 + 1)
    | AttemptOutcome.connError m =>
      let rest := make_request_from cfg f remaining (attempt + 1)
        (lastExceptionMsg (AttemptOutcome.connError m))
      (rest.1, backoffSleep ++ rest.2.1, rest.2.2 + 1)
    | AttemptOutcome.otherError m =>
      let rest := make_request_from cfg f remaining (attempt + 1)
        (lastExceptionMsg (AttemptOutcome.otherError m))
      (rest.1, backoffSleep ++ rest.2.1, rest.2.2 + 1)

/-- `_make_request`: `for attempt in range(self.retry_attempts)` starting
with `last_exception = None`. -/
def make_request (cfg : ApiConfig) (f : Nat → AttemptOutcome) :
    RequestResult × List ℚ × Nat :=
  make_request_from cfg f cfg.retry_attempts 0 none

/-- The transient failures of the claim: timeout, connection error, HTTP 5xx. -/
def AttemptOutcome.isTransient : AttemptOutcome → Bool
  | AttemptOutcome.http5xx _ => true
  | AttemptOutcome.timeout => true
  | AttemptOutcome.connError _ => true
  | _ => false

theorem make_request_from_all_transient (cfg : ApiConfig) (f : Nat → AttemptOutcome) :
    ∀ (r a : Nat) (last : Option String),
      (∀ i, a ≤ i → i < a + r → (f i).isTransient = true) →
      a + r = cfg.retry_attempts →
      ∃ l, make_request_from cfg f r a last =
        (RequestResult.exhausted l,
         (List.range' a (r - 1)).map (fun i => cfg.retry_backoff ^ i), r) := by
  intro r
  induction r with
  | zero => intro a last _ _; exact ⟨last, by simp [make_request_from]⟩
  | succ r ih =>
    intro a last htr hN
    have hfa : (f a).isTransient = true := htr a (le_refl a) (by omega)
    have hguard : (a < cfg.retry_attempts - 1) = (0 < r) := by
      simp only [eq_iff_iff]; omega
    have hrest : ∀ last', ∃ l, make_request_from cfg f r (a + 1) last' =
        (RequestResult.exhausted l,
         (List.range' (a + 1) (r - 1)).map (fun i => cfg.retry_backoff ^ i), r) := by
      intro last'
      exact ih (a + 1) last' (fun i h1 h2 => htr i (by omega) (by omega)) (by omega)
    have hsleep : ∀ tail : List ℚ,
        ((if a < cfg.retry_attempts - 1 then [cfg.retry_backoff ^ a] else []) ++
          ((List.range' (a + 1) (r - 1)).map (fun i => cfg.retry_backoff ^ i))) =
        (List.range' a (r + 1 - 1)).map (fun i => cfg.retry_backoff ^ i) := by
      intro _
      rcases Nat.eq_zero_or_pos r with hr | hr
      · subst hr
        rw [if_neg (by omega)]
        simp
      · rw [if_pos (by omega)]
        have : r + 1 - 1 = (r - 1) + 1 := by omega
        rw [this, List.range'_succ]
        simp
    cases hf : f a with
    | success d => rw [hf] at hfa; simp [AttemptOutcome.isTransient] at hfa
    | apiError c m => rw [hf] at hfa; simp [AttemptOutcome.isTransient] at hfa
    | httpOther s t => rw [hf] at hfa; simp [AttemptOutcome.isTransient] at hfa
    | http429 rA => rw [hf] at hfa; simp [AttemptOutcome.isTransient] at hfa
    | http5xx s =>
      obtain ⟨l, hl⟩ := hrest last
      exact ⟨l, by simp only [make_request_from, hf, hl, hsleep []]⟩
    | timeout =>
      obtain ⟨l, hl⟩ := hrest (lastExceptionMsg AttemptOutcome.timeout)
      exact ⟨l, by simp only [make_request_from, hf, hl, hsleep []]⟩
    | connError m =>
      obtain ⟨l, hl⟩ := hrest (lastExceptionMsg (AttemptOutcome.connError m))
      exact ⟨l, by simp only [make_request_from, hf, hl, hsleep []]⟩
    | otherError m =>
      obtain ⟨l, hl⟩ := hrest (lastExceptionMsg (AttemptOutcome.otherError m))
      exact ⟨l, by simp only [make_request_from, hf, hl, hsleep []]⟩

/-- C3: when every attempt fails transiently (timeout, connection error or
HTTP 5xx), `_make_request` performs exactly `retry_attempts = N` backend
calls, sleeps `backoff ^ attempt` seconds between consecutive attempts for
`attempt = 0 .. N-2`, and returns the all-attempts-exhausted error result. -/
theorem c3_retry_exhaustion (cfg : ApiConfig) (f : Nat → AttemptOutcome)
    (htr : ∀ i, i < cfg.retry_attempts → (f i).isTransient = true) :
    ∃ l, make_request cfg f =
      (RequestResult.exhausted l,
       (List.range (cfg.retry_attempts - 1)).map (fun i => cfg.retry_backoff ^ i),
       cfg.retry_attempts) := by
  have h := make_request_from_all_transient cfg f cfg.retry_attempts 0 none
    (fun i _ h2 => htr i (by omega)) (by omega)
  simpa [make_request, List.range_eq_range'] using h

theorem c3_retry_exhaustion_witness :
    ∃ l, make_request {} (fun _ => AttemptOutcome.timeout) =
      (RequestResult.exhausted l, [(1 : ℚ), 3/2], 3) := by
  have h := c3_retry_exhaustion {} (fun _ => AttemptOutcome.timeout)
    (fun i _ => rfl)
  obtain ⟨l, hl⟩ := h
  refine ⟨l, ?_⟩
  rw [hl]
  norm_num [List.range_succ]

/-- C4: counterexample.  With `retry_attempts = 1` and a backend that
returns 429 once and would succeed on the next call, the loop's `continue`
consumes the single allowed iteration: the client sleeps `Retry-After`,
makes no further call, and returns the exhausted error instead of the
success the claim promises. -/
theorem c4_429_consumes_attempt_cex :
    make_request { retry_attempts := 1 }
        (fun i => if i = 0 then AttemptOutcome.http429 60 else AttemptOutcome.success "ok") =
      (RequestResult.exhausted none, [60], 1) ∧
    (make_request { retry_attempts := 1 }
        (fun i => if i = 0 then AttemptOutcome.http429 60 else AttemptOutcome.success "ok")).1 ≠
      RequestResult.ok "ok" := by
  constructor
  · simp [make_request, make_request_from]
  · simp [make_request, make_request_from]

/-- C4 amended: a 429 at an attempt with loop iterations remaining sleeps
the server-provided `Retry-After` and retries, but it does consume one of
the `retry_attempts` loop iterations. -/
theorem c4_429_sleeps_and_retries (cfg : ApiConfig) (f : Nat → AttemptOutcome)
    (r a : Nat) (last : Option String) (rA : ℚ)
    (h : f a = AttemptOutcome.http429 rA) :
    make_request_from cfg f (r + 1) a last =
      ((make_request_from cfg f r (a + 1) last).1,
       rA :: (make_request_from cfg f r (a + 1) last).2.1,
       (make_request_from cfg f r (a + 1) last).2.2 + 1) := by
  simp [make_request_from, h]

theorem c4_429_sleeps_and_retries_witness :
    make_request_from {} (fun _ => AttemptOutcome.http429 60) 2 0 none =
      ((make_request_from {} (fun _ => AttemptOutcome.http429 60) 1 1 none).1,
       60 :: (make_request_from {} (fun _ => AttemptOutcome.http429 60) 1 1 none).2.1,
       (make_request_from {} (fun _ => AttemptOutcome.http429 60) 1 1 none).2.2 + 1) :=
  c4_429_sleeps_and_retries {} (fun _ => AttemptOutcome.http429 60) 1 0 none 60 rfl

/-! ## Session-breakout signal resolution (`bybit_futures_bot.py`)

`_determine_strongest_signal` (lines 409-454) resolves possibly conflicting
long/short breakout flags; `_check_session_breakout` (lines 353-403) submits
an order only for a resolved `LONG`/`SHORT` that also passes confirmation. -/

inductive Direction where
  | long
  | short
  | conflict
  | none
deriving DecidableEq

/-- `_determine_strongest_signal`: one-sided signals pass through; for two
simultaneous signals the side whose price distance past its level is
strictly larger wins, an exact tie is a `CONFLICT`; no signal is `NONE`. -/
def determine_strongest_signal (current_price : ℚ) (long_signal short_signal : Bool)
    (long_breakout_level short_breakout_level : ℚ) : Direction :=
  if long_signal = true ∧ ¬short_signal = true then Direction.long
  else if short_signal = true ∧ ¬long_signal = true then Direction.short
  else if long_signal = true ∧ short_signal = true then
    let long_distance := current_price - long_breakout_level
    let short_distance := short_breakout_level - current_price
    if long_distance > short_distance then Direction.long
    else if short_distance > long_distance then Direction.short
    else Direction.conflict
  else Direction.none

/-- The order-submission dispatch of `_check_session_breakout` on the
resolved direction: `LONG`/`SHORT` submit a Buy/Sell only when breakout
confirmation passes; `CONFLICT` and `NONE` submit nothing (the function
falls through to `return None`). -/
def session_breakout_order (d : Direction) (confirm_long confirm_short : Bool) :
    Option Side :=
  match d with
  | Direction.long => if confirm_long then some Side.buy else Option.none
  | Direction.short => if confirm_short then some Side.sell else Option.none
  | Direction.conflict => Option.none
  | Direction.none => Option.none

/-- C5: with both breakout conditions true the resolution compares
`price − long_level` with `short_level − price` and picks the strictly
larger side, resolving an exact tie to `CONFLICT` with no order submitted;
with exactly one condition true that side is picked, and with neither no
direction is selected. -/
theorem c5_signal_resolution (price ll sl : ℚ) (ls ss cl cs : Bool) :
    (ls = true → ss = true →
      ((price - ll > sl - price →
          determine_strongest_signal price ls ss ll sl = Direction.long) ∧
       (sl - price > price - ll →
          determine_strongest_signal price ls ss ll sl = Direction.short) ∧
       (price - ll = sl - price →
          determine_strongest_signal price ls ss ll sl = Direction.conflict ∧
          session_breakout_order (determine_strongest_signal price ls ss ll sl) cl cs =
            Option.none))) ∧
    (ls = true → ss = false →
      determine_strongest_signal price ls ss ll sl = Direction.long) ∧
    (ls = false → ss = true →
      determine_strongest_signal price ls ss ll sl = Direction.short) ∧
    (ls = false → ss = false →
      determine_strongest_signal price ls ss ll sl = Direction.none) := by
  cases ls <;> cases ss
  · exact ⟨fun h => by simp at h, fun h => by simp at h, fun _ h => by simp at h,
      fun _ _ => by simp [determine_strongest_signal]⟩
  · exact ⟨fun h => by simp at h, fun h => by simp at h,
      fun _ _ => by simp [determine_strongest_signal], fun _ h => by simp at h⟩
  · exact ⟨fun _ h => by simp at h, fun _ _ => by simp [determine_strongest_signal],
      fun h => by simp at h, fun h => by simp at h⟩
  · have hd : determine_strongest_signal price true true ll sl =
        (if price - ll > sl - price then Direction.long
         else if sl - price > price - ll then Direction.short else Direction.conflict) := by
      simp [determine_strongest_signal]
    refine ⟨fun _ _ => ⟨fun hlt => by rw [hd, if_pos hlt], fun hlt => ?_, fun heq => ?_⟩,
      fun _ h => by simp at h, fun h => by simp at h, fun h => by simp at h⟩
    · rw [hd, if_neg (by simp only [not_lt]; linarith), if_pos hlt]
    · have hc : determine_strongest_signal price true true ll sl = Direction.conflict := by
        rw [hd, if_neg (by simp only [not_lt]; linarith),
          if_neg (by simp only [not_lt]; linarith)]
      exact ⟨hc, by rw [hc]; rfl⟩

theorem c5_signal_resolution_witness :
    ((true : Bool) = true → (true : Bool) = true →
      (((100 : ℚ) - 98 > 102 - 100 →
          determine_strongest_signal 100 true true 98 102 = Direction.long) ∧
       ((102 : ℚ) - 100 > 100 - 98 →
          determine_strongest_signal 100 true true 98 102 = Direction.short) ∧
       ((100 : ℚ) - 98 = 102 - 100 →
          determine_strongest_signal 100 true true 98 102 = Direction.conflict ∧
          session_breakout_order (determine_strongest_signal 100 true true 98 102)
            true true = Option.none))) ∧
    ((true : Bool) = true → (true : Bool) = false →
      determine_strongest_signal 100 true true 98 102 = Direction.long) ∧
    ((true : Bool) = false → (true : Bool) = true →
      determine_strongest_signal 100 true true 98 102 = Direction.short) ∧
    ((true : Bool) = false → (true : Bool) = false →
      determine_strongest_signal 100 true true 98 102 = Direction.none) :=
  c5_signal_resolution 100 98 102 true true true true

/-! ## Strategy execution harness (`auto_trader.py`, `_execute_strategy`,
lines 262-479)

Python dicts carrying signals are association lists over `PyVal`; `dget`
is `dict.get`.  The worker body (lines 271-410) runs in a thread writing
`result[0]`/`exception[0]`; the harness then branches on timeout, exception
(with an RSI fallback) and the normal path.  The host language's rendering
of a float into an f-string is abstracted as a `render : ℚ → String`
parameter. -/

inductive PyVal where
  | str (s : String)
  | num (q : ℚ)
deriving DecidableEq

abbrev PyDict := List (String × PyVal)

def dget (d : PyDict) (k : String) : Option PyVal :=
  (d.find? (fun e => e.1 == k)).map (fun e => e.2)

/-- The `{"action": "HOLD", "reason": ...}` dictionaries. -/
def holdDict (reason : String) : PyDict :=
  [("action", PyVal.str "HOLD"), ("reason", PyVal.str reason)]

/-- Strategy configuration drawn from `get_config()` as `rsi_strategy`
reads it. -/
structure StrategyConfig where
  rsi_oversold : ℚ := 30
  rsi_overbought : ℚ := 70
  position_size : ℚ := 1/2
  stop_loss_percentage : ℚ := 3/2
  take_profit_percentage : ℚ := 5/2
deriving DecidableEq

/-- The environment `rsi_strategy` reads: whether the code in the `try`
raises, whether the market-data frame is empty, the computed RSI series and
the ticker price (0 when unavailable). -/
structure RsiEnv where
  raises : Bool := false
  df_empty : Bool := false
  rsi_list : List ℚ := []
  price : ℚ := 0
deriving DecidableEq

/-- `rsi_strategy` (`trading_strategies.py` lines 602-660).  Every return
path carries an `action` key.  The Python reason strings also interpolate
the RSI value; the interpolation is dropped here, nothing reads it back. -/
def rsi_strategy (cfg : StrategyConfig) (env : RsiEnv) (symbol : String)
    (balance : ℚ) (position_size : Option ℚ) : PyDict :=
  if env.raises then holdDict "Strategy error" else
  if env.df_empty then holdDict "No market data available" else
  let rsi := (env.rsi_list.getLast?).getD 50
  let current_price := env.price
  if current_price = 0 then holdDict "Unable to get current price" else
  let ps := position_size.getD cfg.position_size
  let quantity := balance * ps / current_price
  if rsi < cfg.rsi_oversold then
    [("action", PyVal.str "BUY"), ("symbol", PyVal.str symbol),
     ("quantity", PyVal.num quantity), ("price", PyVal.num current_price),
     ("rsi", PyVal.num rsi),
     ("stop_loss", PyVal.num (current_price * (1 - cfg.stop_loss_percentage / 100))),
     ("take_profit", PyVal.num (current_price * (1 + cfg.take_profit_percentage / 100))),
     ("reason", PyVal.str "RSI oversold")]
  else if rsi > cfg.rsi_overbought then
    [("action", PyVal.str "SELL"), ("symbol", PyVal.str symbol),
     ("quantity", PyVal.num quantity), ("price", PyVal.num current_price),
     ("rsi", PyVal.num rsi),
     ("stop_loss", PyVal.num (current_price * (1 + cfg.stop_loss_percentage / 100))),
     ("take_profit", PyVal.num (current_price * (1 - cfg.take_profit_percentage / 100))),
     ("reason", PyVal.str "RSI overbought")]
  else
    [("action", PyVal.str "HOLD"), ("symbol", PyVal.str symbol),
     ("rsi", PyVal.num rsi), ("reason", PyVal.str "RSI neutral")]

/-- What the dispatched strategy call can hand back before validation:
`None`, a non-dictionary value, or a dictionary. -/
inductive RawResult where
  | pyNone
  | nonDict
  | dict (d : PyDict)
deriving DecidableEq

inductive HealthStatus where
  | healthy
  | degraded
  | unhealthy
deriving DecidableEq

/-- The worker's result validation (`auto_trader.py` lines 393-404):
`None`, non-dict and action-less results are replaced by HOLD dicts. -/
def validate_result : RawResult → PyDict
  | RawResult.pyNone => holdDict "Strategy returned no signal"
  | RawResult.nonDict => holdDict "Strategy returned invalid result"
  | RawResult.dict d =>
    if (dget d "action").isSome then d else holdDict "Strategy returned result without action"

/-- Environment of the worker body: the balance response (`ok (some b)` =
data listing a USDT total `b`, `ok none` = data without a USDT entry,
`error e` = an error response), the alternative balance source (`none` =
it too failed), the health-check outcome, whether `self.config` exists,
and the raw value the dispatched strategy returns. -/
structure WorkerEnv where
  balance_response : Except String (Option ℚ) := Except.ok (some 100)
  alt_balance : Option ℚ := Option.none
  health : HealthStatus := HealthStatus.healthy
  config_present : Bool := true
  strategy_raw : RawResult := RawResult.pyNone

def knownStrategies : List String :=
  ["RSI_STRATEGY", "RSI_MULTI_TF", "VOLUME_FILTER", "ADVANCED_STRATEGY",
   "GRID_TRADING", "DCA"]

/-- The balance checks and dispatch of the worker after the balance
has been determined (lines 328-404).  The second component records
whether a strategy was actually evaluated. -/
def worker_after_balance (render : ℚ → String) (strategy_type : String)
    (env : WorkerEnv) (balance : ℚ) : PyDict × Bool :=
  if balance ≤ 0 then (holdDict ("Insufficient balance: " ++ render balance), false)
  else if balance < 10 then
    (holdDict ("Balance too low: $" ++ render balance ++ " (minimum: $10)"), false)
  else if env.health = HealthStatus.unhealthy then
    (holdDict "System unhealthy: UNHEALTHY", false)
  else if ¬env.config_present then (holdDict "Configuration not found", false)
  else if strategy_type ∈ knownStrategies then (validate_result env.strategy_raw, true)
  else (validate_result RawResult.pyNone, false)

/-- The worker body `execute_strategy` (lines 271-410): symbol validation,
balance retrieval with its alternative source, then `worker_after_balance`. -/
def execute_strategy_worker (render : ℚ → String) (strategy_type symbol : String)
    (env : WorkerEnv) : PyDict × Bool :=
  if symbol = "" then (holdDict ("Invalid symbol: " ++ symbol), false)
  else
    match env.balance_response with
    | Except.ok ob => worker_after_balance render strategy_type env (ob.getD 0)
    | Except.error e =>
      match env.alt_balance with
      | some b => worker_after_balance render strategy_type env b
      | Option.none => (holdDict ("Failed to get balance: " ++ e), false)

/-- Whether `needle` occurs contiguously inside `hay` (Python's `in` on
strings, over the char lists). -/
def containsSub (needle : List Char) : List Char → Bool
  | [] => needle.isEmpty
  | c :: t => needle.isPrefixOf (c :: t) || containsSub needle t

/-- The specific error messages the exception path of `_execute_strategy`
builds from the exception's type name (lines 435-443).  The final branch
also appends `str(exception)` in Python. -/
def error_msg_for (error_type : String) : String :=
  if containsSub "Timeout".toList error_type.toList then "Strategy execution timed out"
  else if containsSub "Connection".toList error_type.toList then "Network connection error"
  else if containsSub "API".toList error_type.toList then "API service error"
  else "Strategy execution error"

/-- The harness environment: whether the worker thread outlived the 30s
join, the exception it recorded (by type name), the worker's inputs, and
the fallback RSI evaluation's inputs. -/
structure ExecEnv where
  timed_out : Bool := false
  worker_exn : Option String := Option.none
  worker_env : WorkerEnv := {}
  fallback_env : RsiEnv := {}
  fallback_raises : Bool := false

/-- The fallback evaluation of the exception path (lines 426-434): only for
non-RSI strategy types, and `none` when the fallback call itself raised. -/
def fallback_value (scfg : StrategyConfig) (strategy_type symbol : String)
    (env : ExecEnv) : Option PyDict :=
  if strategy_type ≠ "RSI_STRATEGY" ∧ ¬env.fallback_raises then
    some (rsi_strategy scfg env.fallback_env symbol 100 Option.none)
  else Option.none

/-- What the exception path returns: a truthy fallback result whose action
is not `HOLD` is passed through as-is; otherwise a HOLD dict built from the
exception's type name. -/
def exception_return (scfg : StrategyConfig) (strategy_type symbol : String)
    (env : ExecEnv) (error_type : String) : PyDict :=
  match fallback_value scfg strategy_type symbol env with
  | some d =>
    if d ≠ [] ∧ dget d "action" ≠ some (PyVal.str "HOLD") then d
    else holdDict (error_msg_for error_type)
  | Option.none => holdDict (error_msg_for error_type)

/-- `_execute_strategy` after the join (lines 412-479): on timeout a HOLD
dict; on a recorded exception the `exception_return` path; on the normal
path the worker's `result[0]`. -/
def execute_strategy (scfg : StrategyConfig) (render : ℚ → String)
    (strategy_type symbol : String) (env : ExecEnv) : PyDict :=
  if env.timed_out then holdDict "Strategy execution timed out"
  else
    match env.worker_exn with
    | some et => exception_return scfg strategy_type symbol env et
    | Option.none => (execute_strategy_worker render strategy_type symbol env.worker_env).1

/-- The `action` entry of a HOLD dictionary. -/
theorem dget_holdDict_action (r : String) :
    dget (holdDict r) "action" = some (PyVal.str "HOLD") := rfl

/-- Every return path of `rsi_strategy` carries the `action` key. -/
theorem rsi_strategy_has_action (cfg : StrategyConfig) (env : RsiEnv)
    (symbol : String) (balance : ℚ) (position_size : Option ℚ) :
    (dget (rsi_strategy cfg env symbol balance position_size) "action").isSome := by
  simp only [rsi_strategy]
  split_ifs <;> rfl

/-- The worker's validation always yields a dictionary with an `action`. -/
theorem validate_result_has_action (r : RawResult) :
    (dget (validate_result r) "action").isSome := by
  cases r with
  | pyNone => rfl
  | nonDict => rfl
  | dict d =>
    by_cases h : (dget d "action").isSome
    · simp only [validate_result]; rw [if_pos h]; exact h
    · simp only [validate_result]; rw [if_neg h]; rfl

/-- Every branch after the balance checks carries the `action` key. -/
theorem worker_after_balance_has_action (render : ℚ → String)
    (strategy_type : String) (env : WorkerEnv) (b : ℚ) :
    (dget (worker_after_balance render strategy_type env b).1 "action").isSome := by
  simp only [worker_after_balance]
  split_ifs <;>
    first
      | rfl
      | exact validate_result_has_action _

/-- Every return path of the worker carries the `action` key. -/
theorem execute_strategy_worker_has_action (render : ℚ → String)
    (strategy_type symbol : String) (env : WorkerEnv) :
    (dget (execute_strategy_worker render strategy_type symbol env).1 "action").isSome := by
  unfold execute_strategy_worker
  by_cases hs : symbol = ""
  · rw [if_pos hs]; rfl
  · rw [if_neg hs]
    cases hbr : env.balance_response with
    | ok ob => exact worker_after_balance_has_action render strategy_type env (ob.getD 0)
    | error e =>
      cases hab : env.alt_balance with
      | some b => exact worker_after_balance_has_action render strategy_type env b
      | none => rfl

/-- C10 (amended): whatever the strategy type, symbol and environment, the
value `_execute_strategy` returns is a dictionary carrying the `action`
key — the timeout path is a HOLD dict, the exception path returns either
the RSI fallback's signal or a HOLD dict, and the worker's validation
replaces `None`, non-dict and action-less results with HOLD dicts. -/
theorem c10_always_action (scfg : StrategyConfig) (render : ℚ → String)
    (strategy_type symbol : String) (env : ExecEnv) :
    (dget (execute_strategy scfg render strategy_type symbol env) "action").isSome := by
  unfold execute_strategy
  split_ifs with ht
  · rfl
  · cases hexn : env.worker_exn with
    | none => exact execute_strategy_worker_has_action render strategy_type symbol env.worker_env
    | some et =>
      unfold exception_return
      cases hfv : fallback_value scfg strategy_type symbol env with
      | none => rfl
      | some d =>
        dsimp only
        split_ifs with hret
        · have hd : d = rsi_strategy scfg env.fallback_env symbol 100 Option.none := by
            by_cases hfb : strategy_type ≠ "RSI_STRATEGY" ∧ ¬env.fallback_raises
            · unfold fallback_value at hfv
              rw [if_pos hfb] at hfv
              exact (Option.some.inj hfv).symm
            · unfold fallback_value at hfv
              rw [if_neg hfb] at hfv
              cases hfv
          rw [hd]
          exact rsi_strategy_has_action scfg env.fallback_env symbol 100 Option.none
        · rfl

/-- C10: counterexample to "the timeout and exception paths return HOLD
dictionaries".  A `DCA` evaluation whose worker raised `ValueError` while
the RSI fallback sees RSI 20 < 30 at price 100 returns the fallback's BUY
signal, not a HOLD dictionary. -/
theorem c10_exception_path_not_hold_cex :
    dget (execute_strategy {} (fun _ => "") "DCA" "BTC/USDT"
        { worker_exn := some "ValueError",
          fallback_env := { rsi_list := [20], price := 100 } }) "action" =
      some (PyVal.str "BUY") := rfl

/-- C6 (counterexample): on timeout the harness returns reason
`"Strategy execution timed out"`, not the exact string `"timed out"`. -/
theorem c6_timeout_reason_cex :
    execute_strategy {} (fun _ => "") "ADVANCED_STRATEGY" "BTC/USDT"
        { timed_out := true } = holdDict "Strategy execution timed out" ∧
    dget (execute_strategy {} (fun _ => "") "ADVANCED_STRATEGY" "BTC/USDT"
        { timed_out := true }) "reason" =
      some (PyVal.str "Strategy execution timed out") ∧
    "Strategy execution timed out" ≠ "timed out" := by
  refine ⟨by simp [execute_strategy], by simp [execute_strategy, dget, holdDict], by simp⟩

/-- C6 (amended): whenever the worker thread is still alive after the
timeout, `_execute_strategy` returns `{action: HOLD, reason: "Strategy
execution timed out"}` — a reason that contains "timed out". -/
theorem c6_timeout_returns_hold (scfg : StrategyConfig) (render : ℚ → String)
    (strategy_type symbol : String) (env : ExecEnv)
    (h : env.timed_out = true) :
    execute_strategy scfg render strategy_type symbol env =
      holdDict "Strategy execution timed out" ∧
    containsSub "timed out".toList "Strategy execution timed out".toList = true := by
  refine ⟨?_, by rfl⟩
  simp [execute_strategy, h]

theorem c6_timeout_returns_hold_witness :
    execute_strategy {} (fun _ => "") "RSI_STRATEGY" "BTC/USDT"
        { timed_out := true, worker_exn := some "ValueError" } =
      holdDict "Strategy execution timed out" ∧
    containsSub "timed out".toList "Strategy execution timed out".toList = true :=
  c6_timeout_returns_hold {} (fun _ => "") "RSI_STRATEGY" "BTC/USDT"
    { timed_out := true, worker_exn := some "ValueError" } rfl

/-- C9 (counterexample): with a fetched balance of 5 the worker returns
HOLD with the `"Balance too low: ..."` reason of the ten-dollar floor, not
`"Insufficient balance"` (that message is the `balance <= 0` branch), and
it does not evaluate the strategy. -/
theorem c9_balance_five_reason_cex :
    execute_strategy_worker (fun _ => "5.0") "ADVANCED_STRATEGY" "BTC/USDT"
        { balance_response := Except.ok (some 5) } =
      (holdDict "Balance too low: $5.0 (minimum: $10)", false) ∧
    dget (execute_strategy_worker (fun _ => "5.0") "ADVANCED_STRATEGY" "BTC/USDT"
        { balance_response := Except.ok (some 5) }).1 "reason" =
      some (PyVal.str "Balance too low: $5.0 (minimum: $10)") ∧
    "Balance too low: $5.0 (minimum: $10)" ≠ "Insufficient balance" := by
  exact ⟨rfl, rfl, by simp⟩

/-- C9 (amended): a fetched balance of 5 (positive but under the $10
minimum) makes the worker return `{action: HOLD, reason: "Balance too low:
$<balance> (minimum: $10)"}` without evaluating the strategy, and the
harness passes that dictionary through. -/
theorem c9_balance_five_holds (scfg : StrategyConfig) (render : ℚ → String)
    (strategy_type symbol : String) (env : ExecEnv)
    (hsym : ¬symbol = "")
    (hbal : env.worker_env.balance_response = Except.ok (some 5))
    (hto : env.timed_out = false) (hexn : env.worker_exn = Option.none) :
    execute_strategy scfg render strategy_type symbol env =
      holdDict ("Balance too low: $" ++ render 5 ++ " (minimum: $10)") ∧
    (execute_strategy_worker render strategy_type symbol env.worker_env).2 = false := by
  have hw : execute_strategy_worker render strategy_type symbol env.worker_env =
      (holdDict ("Balance too low: $" ++ render 5 ++ " (minimum: $10)"), false) := by
    rw [execute_strategy_worker, if_neg hsym, hbal]
    norm_num [worker_after_balance]
  refine ⟨?_, by rw [hw]⟩
  rw [execute_strategy, if_neg (by rw [hto]; exact Bool.false_ne_true)]
  rw [hexn]
  simp only []
  rw [hw]

theorem c9_balance_five_holds_witness :
    execute_strategy {} (fun _ => "5.0") "ADVANCED_STRATEGY" "BTC/USDT"
        { worker_env := { balance_response := Except.ok (some 5) } } =
      holdDict ("Balance too low: $" ++ (fun (_ : ℚ) => "5.0") 5 ++ " (minimum: $10)") ∧
    (execute_strategy_worker (fun _ => "5.0") "ADVANCED_STRATEGY" "BTC/USDT"
        { balance_response := Except.ok (some 5) }).2 = false :=
  c9_balance_five_holds {} (fun _ => "5.0") "ADVANCED_STRATEGY" "BTC/USDT"
    { worker_env := { balance_response := Except.ok (some 5) } }
    (by simp) rfl rfl rfl

/-! ## Websocket subscription set (`pionex_ws.py`, lines 80-103)

`subscribe` adds `json.dumps({"event": "subscribe", "channel": ..., **params})`
to the `subscriptions` set; `unsubscribe` discards
`json.dumps({"event": "unsubscribe", ...})`; `_resubscribe_all` resends every
stored message on reconnect.  `json.dumps` is injective on these message
dicts, so the set is modelled over the structured message itself. -/

structure SubMsg where
  event : String
  channel : String
  params : List (String × String)
deriving DecidableEq

/-- Python `set.add`. -/
def set_add (m : SubMsg) (s : List SubMsg) : List SubMsg :=
  if m ∈ s then s else m :: s

/-- Python `set.discard`. -/
def set_discard (m : SubMsg) (s : List SubMsg) : List SubMsg :=
  s.erase m

/-- `subscribe` (lines 80-89): the stored key carries `event = "subscribe"`. -/
def subscribe (channel : String) (params : List (String × String))
    (subs : List SubMsg) : List SubMsg :=
  set_add { event := "subscribe", channel := channel, params := params } subs

/-- `unsubscribe` (lines 91-98): the discarded key carries
`event = "unsubscribe"`. -/
def unsubscribe (channel : String) (params : List (String × String))
    (subs : List SubMsg) : List SubMsg :=
  set_discard { event := "unsubscribe", channel := channel, params := params } subs

/-- `_resubscribe_all` (lines 100-103) resends exactly the stored set. -/
def resubscribe_all (subs : List SubMsg) : List SubMsg :=
  subs

/-- C7: subscribing twice is idempotent, but subscribe-then-unsubscribe does
NOT return the set to its prior value: `unsubscribe` discards the serialized
unsubscribe-event message, which is never the stored subscribe-event key, so
the subscription survives and is still replayed on reconnect. -/
theorem c7_unsubscribe_misses_key :
    subscribe "TRADE" [] (subscribe "TRADE" [] []) = subscribe "TRADE" [] [] ∧
    resubscribe_all (unsubscribe "TRADE" [] (subscribe "TRADE" [] [])) =
      [{ event := "subscribe", channel := "TRADE", params := [] }] ∧
    unsubscribe "TRADE" [] (subscribe "TRADE" [] []) ≠ ([] : List SubMsg) := by
  refine ⟨rfl, rfl, fun h => ?_⟩
  have : ({ event := "subscribe", channel := "TRADE", params := [] } : SubMsg) ∈
      unsubscribe "TRADE" [] (subscribe "TRADE" [] []) := by
    rw [show unsubscribe "TRADE" [] (subscribe "TRADE" [] []) =
      [{ event := "subscribe", channel := "TRADE", params := [] }] from rfl]
    exact List.mem_singleton.mpr rfl
  rw [h] at this
  exact List.not_mem_nil _ this

/-! ## Watchdog failure handling (`watchdog.py`)

`_handle_bot_failure` (lines 192-207) increments the per-instance failure
counter, and on reaching `max_failures` calls `_restart_bot` (lines 217-240)
once and resets the counter to 0.  `restart_count` counts the
`_restart_bot` calls triggered for each instance. -/

structure WatchdogState where
  failure_count : Nat → Nat
  restart_count : Nat → Nat

/-- `_handle_bot_failure`: increment, then restart-and-reset when the new
count reaches `max_failures`. -/
def handle_bot_failure (max_failures : Nat) (st : WatchdogState) (user_id : Nat) :
    WatchdogState :=
  let c := st.failure_count user_id + 1
  if c ≥ max_failures then
    { failure_count := fun u => if u = user_id then 0 else st.failure_count u,
      restart_count := fun u => if u = user_id then st.restart_count u + 1
        else st.restart_count u }
  else
    { failure_count := fun u => if u = user_id then c else st.failure_count u,
      restart_count := st.restart_count }

/-- C8: when an instance's consecutive failure count reaches `max_failures`
the watchdog triggers exactly one restart of that instance and resets its
counter to 0; below the threshold no restart is triggered and the counter is
only incremented; other instances are untouched. -/
theorem c8_watchdog_restart (max_failures : Nat) (st : WatchdogState) (u : Nat) :
    (st.failure_count u + 1 ≥ max_failures →
      (handle_bot_failure max_failures st u).restart_count u = st.restart_count u + 1 ∧
      (handle_bot_failure max_failures st u).failure_count u = 0) ∧
    (st.failure_count u + 1 < max_failures →
      (handle_bot_failure max_failures st u).restart_count u = st.restart_count u ∧
      (handle_bot_failure max_failures st u).failure_count u = st.failure_count u + 1) ∧
    (∀ v, v ≠ u →
      (handle_bot_failure max_failures st u).restart_count v = st.restart_count v ∧
      (handle_bot_failure max_failures st u).failure_count v = st.failure_count v) := by
  by_cases h : st.failure_count u + 1 ≥ max_failures
  · refine ⟨fun _ => ?_, fun hlt => absurd h (by omega), fun v hv => ?_⟩
    · simp [handle_bot_failure, if_pos h]
    · simp [handle_bot_failure, if_pos h, hv]
  · refine ⟨fun hge => absurd hge h, fun _ => ?_, fun v hv => ?_⟩
    · simp [handle_bot_failure, if_neg h]
    · simp [handle_bot_failure, if_neg h, hv]

end RaisaTrade
